import Mathlib

/-!
Shallow embedding of `wal_e/worker/upload.py` (upload orchestration of a
WAL archiver) and proofs about its behaviour.

The embedding models the module's pure decision logic directly; the
external collaborators (the blobstore client `do_lzop_put` /
`uri_put_file`, the secondary NFS push function, and the clock) are
passed in as explicit outcome parameters, so each Lean definition mirrors
one Python function with its side effects reified as event/log lists.
-/

namespace WalE

/-- A WAL segment descriptor: `name` and local filesystem `path`
(see the data model of the archiver: both fields are read-only). -/
structure Segment where
  name : String
  path : String
deriving DecidableEq, Repr

/-- A Python exception value, reduced to the type's name and the message
it carries.  `Exception(error_msg)` is embedded as
`⟨"Exception", error_msg⟩`. -/
structure PyExc where
  typ : String
  msg : String
deriving DecidableEq, Repr

/-- Observable events of one `WalDualUploader.__call__` run, in program
order: starting the NFS thread, attempting the blobstore upload, error
logging, joining the thread, and info logging. -/
inductive Event where
  | startSecondary
  | primaryAttempt
  | logError (msg : String)
  | logInfo (msg : String)
  | joinSecondary
deriving DecidableEq, Repr

def Event.isStartSecondary : Event → Bool
  | .startSecondary => true
  | _ => false

def Event.isPrimaryAttempt : Event → Bool
  | .primaryAttempt => true
  | _ => false

def Event.isJoinSecondary : Event → Bool
  | .joinSecondary => true
  | _ => false

/-- Value of `errno.EEXIST` (POSIX: 17), as used by `WalNfsThread.run`. -/
def errnoEEXIST : Int := 17

/-- Embedding of `WalNfsThread.run`: the thread records success exactly
when the push function's return code is `0` or `errno.EEXIST`; it
starts from the class attribute `success = False`. -/
def nfsThreadRun (returnCode : Int) : Bool :=
  returnCode == 0 || returnCode == errnoEEXIST

/-- Embedding of `WalDualUploader.__call__`.  The two external outcomes
are parameters: `primaryOutcome` is `none` when
`blobstore_uploader.upload_to_blobstore(segment)` returns and `some e`
when it raises `e`; `secondaryReturnCode` is what the NFS push function
returns inside the thread.  The result is the list of observable events
in program order, paired with either the raised exception or the
returned segment. -/
def walDualUploaderCall (seg : Segment) (primaryOutcome : Option PyExc)
    (secondaryReturnCode : Int) : List Event × Except PyExc Segment :=
  let nfsSuccess := nfsThreadRun secondaryReturnCode
  let success := primaryOutcome.isNone
  let glusterMsg := "failed to upload " ++ seg.path ++ " to gluster"
  let ex : Option PyExc :=
    if nfsSuccess then primaryOutcome
    else match primaryOutcome with
      | none => some ⟨"Exception", glusterMsg⟩
      | some e => some e
  let events :=
    [Event.startSecondary, Event.primaryAttempt]
    ++ (match primaryOutcome with
        | some _ =>
          [Event.logError ("failed to upload " ++ seg.path ++ " to blobstore")]
        | none => [])
    ++ [Event.joinSecondary]
    ++ (if nfsSuccess then [] else [Event.logError glusterMsg])
    ++ [Event.logInfo ("push result "
          ++ (if success && nfsSuccess then "True" else "False")
          ++ " for file " ++ seg.path)]
  let result : Except PyExc Segment :=
    match ex with
    | some e => Except.error e
    | none => Except.ok seg
  (events, result)

/-- C1: a `WalDualUploader` call succeeds — returns the segment without
raising — exactly when the primary blobstore upload raised no exception
and the secondary push function returned `0` or `errno.EEXIST`. -/
theorem walDualUploader_success_iff (seg : Segment) (primaryOutcome : Option PyExc)
    (secondaryReturnCode : Int) :
    (walDualUploaderCall seg primaryOutcome secondaryReturnCode).2 = Except.ok seg ↔
      primaryOutcome = none ∧
        (secondaryReturnCode = 0 ∨ secondaryReturnCode = errnoEEXIST) := by
  have hnfs : nfsThreadRun secondaryReturnCode = true ↔
      secondaryReturnCode = 0 ∨ secondaryReturnCode = errnoEEXIST := by
    simp [nfsThreadRun]
  cases primaryOutcome with
  | none =>
    by_cases h : nfsThreadRun secondaryReturnCode = true
    · simp [walDualUploaderCall, h, hnfs.mp h]
    · have : ¬(secondaryReturnCode = 0 ∨ secondaryReturnCode = errnoEEXIST) :=
        fun hc => h (hnfs.mpr hc)
      simp [walDualUploaderCall, h, this]
  | some e =>
    by_cases h : nfsThreadRun secondaryReturnCode = true
    · simp [walDualUploaderCall, h]
    · simp [walDualUploaderCall, h]

/-- C2: when the secondary upload fails, the call raises: the primary's
own exception when the primary raised one, and otherwise a newly
synthesized generic `Exception` describing the secondary (gluster)
failure — a secondary failure is never silently dropped. -/
theorem walDualUploader_secondary_failure_raises (seg : Segment)
    (primaryOutcome : Option PyExc) (secondaryReturnCode : Int)
    (h : ¬(secondaryReturnCode = 0 ∨ secondaryReturnCode = errnoEEXIST)) :
    (walDualUploaderCall seg primaryOutcome secondaryReturnCode).2 =
      Except.error
        (match primaryOutcome with
         | some e => e
         | none =>
           ⟨"Exception", "failed to upload " ++ seg.path ++ " to gluster"⟩) := by
  have hnfs : nfsThreadRun secondaryReturnCode = false := by
    simpa [nfsThreadRun, not_or] using h
  cases primaryOutcome with
  | none => simp [walDualUploaderCall, hnfs]
  | some e => simp [walDualUploaderCall, hnfs]

/-- C2 witness: with a failing secondary return code 1 and a successful
primary, the call raises the synthesized gluster-failure exception. -/
theorem walDualUploader_secondary_failure_raises_witness :
    ¬((1 : Int) = 0 ∨ (1 : Int) = errnoEEXIST) ∧
      (walDualUploaderCall ⟨"000000010000000000000042", "/pg/wal/seg"⟩ none 1).2 =
        Except.error
          ⟨"Exception", "failed to upload /pg/wal/seg to gluster"⟩ :=
  ⟨by decide,
   walDualUploader_secondary_failure_raises
     ⟨"000000010000000000000042", "/pg/wal/seg"⟩ none 1 (by decide)⟩

/-- C8: in every `WalDualUploader` call the trace begins by starting the
secondary thread and then making the primary attempt exactly once each,
and contains exactly one join of the secondary thread after both; the
join occurs in the trace for every outcome, so no exception is raised to
the caller before the join completes. -/
theorem walDualUploader_trace (seg : Segment) (primaryOutcome : Option PyExc)
    (secondaryReturnCode : Int) :
    ∃ rest,
      (walDualUploaderCall seg primaryOutcome secondaryReturnCode).1 =
          Event.startSecondary :: Event.primaryAttempt :: rest ∧
        rest.filter Event.isStartSecondary = [] ∧
        rest.filter Event.isPrimaryAttempt = [] ∧
        (rest.filter Event.isJoinSecondary).length = 1 := by
  by_cases h : nfsThreadRun secondaryReturnCode = true
  · cases primaryOutcome with
    | none =>
      refine ⟨[Event.joinSecondary,
        Event.logInfo ("push result True for file " ++ seg.path)], ?_, rfl, rfl, rfl⟩
      simp [walDualUploaderCall, h]
    | some e =>
      refine ⟨[Event.logError ("failed to upload " ++ seg.path ++ " to blobstore"),
        Event.joinSecondary,
        Event.logInfo ("push result False for file " ++ seg.path)], ?_, rfl, rfl, rfl⟩
      simp [walDualUploaderCall, h]
  · have h' : nfsThreadRun secondaryReturnCode = false := by
      simpa using h
    cases primaryOutcome with
    | none =>
      refine ⟨[Event.joinSecondary,
        Event.logError ("failed to upload " ++ seg.path ++ " to gluster"),
        Event.logInfo ("push result False for file " ++ seg.path)], ?_, rfl, rfl, rfl⟩
      simp [walDualUploaderCall, h']
    | some e =>
      refine ⟨[Event.logError ("failed to upload " ++ seg.path ++ " to blobstore"),
        Event.joinSecondary,
        Event.logError ("failed to upload " ++ seg.path ++ " to gluster"),
        Event.logInfo ("push result False for file " ++ seg.path)], ?_, rfl, rfl, rfl⟩
      simp [walDualUploaderCall, h']

/-! ### Remote key construction -/

/-- Embedding of Python's `s.rstrip('/')` as used on the configured
prefixes: removes every trailing `'/'` character. -/
def rstripSlash (s : String) : String :=
  String.mk ((s.data.reverse.dropWhile (fun c => c == '/')).reverse)

/-- Independent characterization of removing all trailing slashes,
defined by structural recursion from the front of the list; proved equal
to `rstripSlash` below. -/
def stripTrailing : List Char → List Char
  | [] => []
  | c :: cs =>
    match stripTrailing cs with
    | [] => if c = '/' then [] else [c]
    | c' :: cs' => c :: c' :: cs'

def stripTrailingStr (s : String) : String :=
  String.mk (stripTrailing s.data)

/-- Stripping exactly one trailing slash, following the claim's words
("exactly one trailing '/' has been stripped ... no more than one
trailing slash is removed"); used only to compare the claim against the
code's `rstrip('/')`. -/
def stripOneTrailingSlash (s : String) : String :=
  if s.data.getLast? = some '/' then String.mk s.data.dropLast else s

theorem stripTrailing_append_single (l : List Char) (c : Char) :
    stripTrailing (l ++ [c]) = if c = '/' then stripTrailing l else l ++ [c] := by
  induction l with
  | nil => rfl
  | cons a l ih =>
    by_cases hc : c = '/'
    · subst hc
      have ih' : stripTrailing (l ++ ['/']) = stripTrailing l := by simpa using ih
      show stripTrailing (a :: (l ++ ['/'])) = stripTrailing (a :: l)
      simp only [stripTrailing, ih']
    · have ih' : stripTrailing (l ++ [c]) = l ++ [c] := by simpa [hc] using ih
      obtain ⟨x, xs, hx⟩ : ∃ x xs, l ++ [c] = x :: xs := by
        cases l with
        | nil => exact ⟨c, [], rfl⟩
        | cons b bs => exact ⟨b, bs ++ [c], rfl⟩
      rw [if_neg hc]
      show stripTrailing (a :: (l ++ [c])) = a :: (l ++ [c])
      simp only [stripTrailing, ih']
      rw [hx]

theorem reverse_dropWhile_eq_stripTrailing (l : List Char) :
    (l.reverse.dropWhile (fun c => c == '/')).reverse = stripTrailing l := by
  induction l using List.reverseRecOn with
  | nil => rfl
  | append_singleton l c ih =>
    rw [stripTrailing_append_single, List.reverse_append, List.reverse_singleton,
      List.singleton_append, List.dropWhile_cons]
    by_cases hc : c = '/'
    · simp [hc, ih]
    · have : (c == '/') = false := by simpa using hc
      simp [this, hc]

theorem rstripSlash_eq_stripTrailingStr (s : String) :
    rstripSlash s = stripTrailingStr s :=
  String.ext (reverse_dropWhile_eq_stripTrailing s.data)

/-- Embedding of the WAL key construction in
`WalUploader.upload_to_blobstore`:
`'{0}/wal_{1}/{2}.lzo'.format(self.layout.prefix.rstrip('/'),
storage.CURRENT_VERSION, segment.name)`.  `storage.CURRENT_VERSION`
lives outside this module and is passed in as `version`. -/
def walKeyUrl (layoutPfx version name : String) : String :=
  rstripSlash layoutPfx ++ "/wal_" ++ version ++ "/" ++ name ++ ".lzo"

/-- C6 counterexample: with configured prefix `"p//"` the code strips
both trailing slashes, not exactly one, so the computed key differs from
the claim's template with one slash stripped. -/
theorem walKey_not_single_strip :
    walKeyUrl "p//" "005" "s" ≠
      stripOneTrailingSlash "p//" ++ "/wal_" ++ "005" ++ "/" ++ "s" ++ ".lzo" := by
  decide

/-- C6 amended: the WAL key equals
`{prefix}/wal_{CURRENT_VERSION}/{name}.lzo` with every trailing `'/'`
stripped from the prefix; in particular a prefix ending in a single
slash and the same prefix without it yield the same key. -/
theorem walKey_eq_stripTrailing (layoutPfx version name : String) :
    walKeyUrl layoutPfx version name =
        stripTrailingStr layoutPfx ++ "/wal_" ++ version ++ "/" ++ name ++ ".lzo" ∧
      walKeyUrl (layoutPfx ++ "/") version name = walKeyUrl layoutPfx version name := by
  constructor
  · rw [walKeyUrl, rstripSlash_eq_stripTrailingStr]
  · have hdata : (layoutPfx ++ "/").data = layoutPfx.data ++ ['/'] := by
      cases layoutPfx; rfl
    have : rstripSlash (layoutPfx ++ "/") = rstripSlash layoutPfx := by
      rw [rstripSlash_eq_stripTrailingStr, rstripSlash_eq_stripTrailingStr]
      apply String.ext
      show stripTrailing (layoutPfx ++ "/").data = stripTrailing layoutPfx.data
      rw [hdata, stripTrailing_append_single, if_pos rfl]
    rw [walKeyUrl, walKeyUrl, this]

/-- Fuel-driven decimal rendering of a natural number, least significant
digit last; `fuel > n` guarantees full evaluation. -/
def decimalDigitsAux : Nat → Nat → List Char
  | 0, _ => []
  | fuel + 1, n =>
    if n < 10 then [Char.ofNat (48 + n)]
    else decimalDigitsAux fuel (n / 10) ++ [Char.ofNat (48 + n % 10)]

/-- Embedding of Python's decimal rendering of a nonnegative int, as
performed by `str`/`format` on the partition ordinal. -/
def decimalDigits (n : Nat) : List Char :=
  decimalDigitsAux (n + 1) n

/-- Embedding of Python's `'{number:08d}'.format` on a nonnegative int:
the decimal digits, left-padded with `'0'` up to width 8 (longer numbers
are rendered unpadded and untruncated). -/
def zfill8 (n : Nat) : String :=
  String.mk (List.replicate (8 - (decimalDigits n).length) '0' ++ decimalDigits n)

/-- Embedding of the partition key construction in
`PartitionUploader.__call__`:
`'{0}/tar_partitions/part_{number:08d}.tar.lzo'.format(self.backup_prefix.rstrip('/'),
number=tpart.name)`. -/
def partitionKeyUrl (backupPfx : String) (n : Nat) : String :=
  rstripSlash backupPfx ++ "/tar_partitions/part_" ++ zfill8 n ++ ".tar.lzo"

theorem decimalDigitsAux_length_le :
    ∀ fuel n k, n < fuel → n < 10 ^ k → 1 ≤ k →
      (decimalDigitsAux fuel n).length ≤ k
  | 0, n, k => by intro hfuel _ _; omega
  | fuel + 1, n, k => by
    intro hfuel hk hk1
    by_cases h10 : n < 10
    · simp [decimalDigitsAux, h10]
      omega
    · have hklarge : 2 ≤ k := by
        by_contra hk2
        have hk1' : k = 1 := by omega
        subst hk1'
        simp at hk
        omega
      have hrec : n / 10 < fuel := by
        have h1 : n / 10 < n := Nat.div_lt_self (by omega) (by omega)
        omega
      have hdiv : n / 10 < 10 ^ (k - 1) := by
        rw [Nat.div_lt_iff_lt_mul (by norm_num)]
        calc n < 10 ^ k := hk
          _ = 10 ^ (k - 1) * 10 := by
            rw [← pow_succ]
            congr 1
            omega
      have ih := decimalDigitsAux_length_le fuel (n / 10) (k - 1) hrec hdiv (by omega)
      simp [decimalDigitsAux, h10]
      omega

theorem decimalDigits_length_le (n : Nat) (h : n ≤ 99999999) :
    (decimalDigits n).length ≤ 8 :=
  decimalDigitsAux_length_le (n + 1) n 8 (Nat.lt_succ_self n) (by omega) (by omega)

/-- C7 counterexample: the claim's template uses `backup_prefix`
verbatim, but the code strips trailing slashes from it first, so for
`backup_prefix = "b/"` the computed key differs from the template. -/
theorem partitionKey_not_verbatim :
    partitionKeyUrl "b/" 3 ≠
      "b/" ++ "/tar_partitions/part_" ++ zfill8 3 ++ ".tar.lzo" := by
  decide

/-- C7 amended: for every ordinal `n ≤ 99999999` the partition key is
`{backup_prefix}/tar_partitions/part_{n:08d}.tar.lzo` with
`backup_prefix` trailing-slash-stripped, the numeric field having
exactly width 8. -/
theorem partitionKey_format (backupPfx : String) (n : Nat)
    (h : n ≤ 99999999) :
    partitionKeyUrl backupPfx n =
        stripTrailingStr backupPfx ++ "/tar_partitions/part_"
          ++ zfill8 n ++ ".tar.lzo" ∧
      (zfill8 n).length = 8 := by
  constructor
  · rw [partitionKeyUrl, rstripSlash_eq_stripTrailingStr]
  · show (List.replicate (8 - (decimalDigits n).length) '0'
      ++ decimalDigits n).length = 8
    have := decimalDigits_length_le n h
    rw [List.length_append, List.length_replicate]
    omega

/-- C7 witness: ordinal `3` yields the numeric field `"00000003"` and
the expected key under the prefix `"b"`. -/
theorem partitionKey_format_witness :
    (3 ≤ 99999999) ∧
      (partitionKeyUrl "b" 3 =
          stripTrailingStr "b" ++ "/tar_partitions/part_"
            ++ zfill8 3 ++ ".tar.lzo" ∧
        (zfill8 3).length = 8) ∧
      zfill8 3 = "00000003" :=
  ⟨by decide, partitionKey_format "b" 3 (by decide), by decide⟩

/-! ### PartitionUploader retry classification and the PUT loop -/

inductive LogLevel where
  | info
  | error
deriving DecidableEq, Repr

structure LogRecord where
  level : LogLevel
  msg : String
  detail : String
deriving DecidableEq, Repr

/-- The dynamic type of a Python exception, as far as the classifier's
`issubclass` checks distinguish it. -/
inductive ExcTyp where
  | socketError
  | s3ResponseError
  | otherError (name : String)
deriving DecidableEq, Repr

/-- One `(typ, value, tb)` exception triple as unpacked by
`log_volume_failures_on_error`: `valueStr` is `str(value)`,
`valueTupleSnd` is `value[1]` when the value is a tuple, `errorCode` is
`value.error_code`, and `tb` identifies the traceback object. -/
structure ExcTup where
  typ : ExcTyp
  valueStr : String
  valueTupleSnd : Option String
  errorCode : String
  tb : Nat
deriving DecidableEq, Repr

/-- Embedding of `value[1] if isinstance(value, tuple) else value`. -/
def socketmsg (e : ExcTup) : String :=
  match e.valueTupleSnd with
  | some m => m
  | none => e.valueStr

/-- Embedding of `standard_detail_message` inside
`log_volume_failures_on_error`; `n` is `exc_processor_cxt`, the running
attempt count. -/
def standardDetailMessage (pfx : String) (n : Nat) (tpartName : String) : String :=
  pfx ++ "  There have been " ++ toString n ++
    " attempts to send the volume " ++ tpartName ++ " so far."

/-- Embedding of `log_volume_failures_on_error`: socket errors and
`RequestTimeTooSkewed` S3 response errors are logged (returning the log
records emitted) and the wrapper retries; anything else is re-raised
unchanged as `Except.error` carrying the original triple. -/
def logVolumeFailuresOnError (tpartName : String) (excTup : ExcTup)
    (excProcessorCxt : Nat) : Except ExcTup (List LogRecord) :=
  if excTup.typ = ExcTyp.socketError then
    Except.ok [⟨LogLevel.info, "Retrying send because of a socket error",
      standardDetailMessage
        ("The socket error's message is '" ++ socketmsg excTup ++ "'.")
        excProcessorCxt tpartName⟩]
  else if excTup.typ = ExcTyp.s3ResponseError ∧
      excTup.errorCode = "RequestTimeTooSkewed" then
    Except.ok [⟨LogLevel.info, "Retrying send because of a Request Skew time",
      standardDetailMessage "" excProcessorCxt tpartName⟩]
  else
    Except.error excTup

/-- The temporary spill file `tf`: its byte content and current read
position. -/
structure SpillFile where
  content : List Nat
  pos : Nat
deriving DecidableEq, Repr

/-- Outcome oracle for `self.blobstore.uri_put_file(self.creds, url, tf)`:
for each attempt number, the result of the PUT (an uploaded key of size
`k.size`, or a raised exception triple) and the read position the PUT
leaves the file at. -/
structure PutOracle where
  result : Nat → Except ExcTup Nat
  endPos : Nat → Nat

/-- Embedding of `put_file_helper`: `tf.seek(0)` and then the PUT, which
streams the file from its (reset) read position.  Returns the bytes
streamed, the PUT outcome, and the file state afterwards. -/
def putFileHelper (oracle : PutOracle) (attempt : Nat) (tf : SpillFile) :
    List Nat × Except ExcTup Nat × SpillFile :=
  let tf0 : SpillFile := { tf with pos := 0 }
  let sent := tf0.content.drop tf0.pos
  (sent, oracle.result attempt, { tf0 with pos := oracle.endPos attempt })

theorem putFileHelper_eq (oracle : PutOracle) (attempt : Nat) (tf : SpillFile) :
    putFileHelper oracle attempt tf =
      (tf.content, oracle.result attempt, ⟨tf.content, oracle.endPos attempt⟩) :=
  rfl

/-- Modelled from the spec: the retry wrapper
`retry(retry_with_count(log_volume_failures_on_error))` comes from
`wal_e.retries`, which is not under `src/`.  Per the spec it executes
one attempt; on failure it hands the failure and the running attempt
count to the classifier, re-raising when the classifier raises and
retrying when the classifier returns.  `fuel` bounds the number of
modelled iterations (`none` means the bound was reached); the second
component lists the bytes streamed by each attempt, in order. -/
def retryPutLoop (tpartName : String) (oracle : PutOracle) :
    Nat → Nat → SpillFile → Option (Except ExcTup Nat × Nat) × List (List Nat)
  | 0, _, _ => (none, [])
  | fuel + 1, n, tf =>
    match putFileHelper oracle (n + 1) tf with
    | (sent, Except.ok k, _) => (some (Except.ok k, n + 1), [sent])
    | (sent, Except.error e, tf2) =>
      match logVolumeFailuresOnError tpartName e (n + 1) with
      | Except.error e2 => (some (Except.error e2, n + 1), [sent])
      | Except.ok _ =>
        let rest := retryPutLoop tpartName oracle fuel (n + 1) tf2
        (rest.1, sent :: rest.2)

theorem retryPutLoop_trace_nonempty (tpartName : String) (oracle : PutOracle)
    (fuel n : Nat) (tf : SpillFile) :
    1 ≤ ((retryPutLoop tpartName oracle (fuel + 1) n tf).2).length := by
  rw [retryPutLoop, putFileHelper_eq]
  cases hres : oracle.result (n + 1) with
  | ok k => simp
  | error e =>
    cases hcl : logVolumeFailuresOnError tpartName e (n + 1) with
    | ok logs => simp [hcl]
    | error e2 => simp [hcl]

/-- C3: a socket error, or an S3 response error whose error code is
`RequestTimeTooSkewed`, is classified retryable: the classifier returns
(rather than re-raising) a single informational log record whose detail
contains the running attempt count — and, for socket errors, the
error's message — and the wrapped PUT is then attempted again. -/
theorem retry_classifier_retryable (tpartName : String) (e : ExcTup) (n : Nat)
    (h : e.typ = ExcTyp.socketError ∨
      (e.typ = ExcTyp.s3ResponseError ∧ e.errorCode = "RequestTimeTooSkewed")) :
    ∃ rec : LogRecord,
      logVolumeFailuresOnError tpartName e n = Except.ok [rec] ∧
      rec.level = LogLevel.info ∧
      (∃ pre post, rec.detail = pre ++ toString n ++ post) ∧
      (e.typ = ExcTyp.socketError →
        ∃ pre post, rec.detail = pre ++ socketmsg e ++ post) ∧
      (∀ oracle tf, oracle.result 1 = Except.error e →
        2 ≤ ((retryPutLoop tpartName oracle 2 0 tf).2).length) := by
  have hretry : ∀ oracle tf, oracle.result 1 = Except.error e →
      2 ≤ ((retryPutLoop tpartName oracle 2 0 tf).2).length := by
    intro oracle tf hres
    have hcl1 : ∃ logs, logVolumeFailuresOnError tpartName e 1 = Except.ok logs := by
      rcases h with h1 | ⟨h2, h3⟩
      · exact ⟨[⟨LogLevel.info, "Retrying send because of a socket error",
          standardDetailMessage
            ("The socket error's message is '" ++ socketmsg e ++ "'.") 1 tpartName⟩],
          by simp [logVolumeFailuresOnError, h1]⟩
      · exact ⟨[⟨LogLevel.info, "Retrying send because of a Request Skew time",
          standardDetailMessage "" 1 tpartName⟩],
          by rw [logVolumeFailuresOnError, if_neg (by simp [h2]), if_pos ⟨h2, h3⟩]⟩
    obtain ⟨logs, hcl1⟩ := hcl1
    have hlen := retryPutLoop_trace_nonempty tpartName oracle 0 1
      ⟨tf.content, oracle.endPos 1⟩
    rw [show (2 : Nat) = 1 + 1 from rfl, retryPutLoop, putFileHelper_eq, hres]
    simp only [hcl1]
    simpa using hlen
  rcases h with h1 | ⟨h2, h3⟩
  · refine ⟨⟨LogLevel.info, "Retrying send because of a socket error",
        standardDetailMessage
          ("The socket error's message is '" ++ socketmsg e ++ "'.") n tpartName⟩,
      by simp [logVolumeFailuresOnError, h1], rfl, ?_, ?_, hretry⟩
    · exact ⟨"The socket error's message is '" ++ socketmsg e ++ "'."
          ++ "  There have been ",
        " attempts to send the volume " ++ tpartName ++ " so far.",
        by simp [standardDetailMessage, String.append_assoc]⟩
    · intro _
      exact ⟨"The socket error's message is '",
        "'." ++ "  There have been " ++ toString n
          ++ " attempts to send the volume " ++ tpartName ++ " so far.",
        by simp [standardDetailMessage, String.append_assoc]⟩
  · refine ⟨⟨LogLevel.info, "Retrying send because of a Request Skew time",
        standardDetailMessage "" n tpartName⟩, ?_, rfl, ?_, ?_, hretry⟩
    · rw [logVolumeFailuresOnError, if_neg (by simp [h2]), if_pos ⟨h2, h3⟩]
    · exact ⟨"" ++ "  There have been ",
        " attempts to send the volume " ++ tpartName ++ " so far.",
        by simp [standardDetailMessage, String.append_assoc]⟩
    · intro hsock
      rw [h2] at hsock
      exact absurd hsock (by simp)

/-- C3 witness: a concrete socket error at attempt 3 is retried and
logged with the attempt count and the socket message. -/
theorem retry_classifier_retryable_witness :
    ∃ rec : LogRecord,
      logVolumeFailuresOnError "part_0001"
          ⟨ExcTyp.socketError, "(110, timed out)", some "timed out", "", 0⟩ 3 =
        Except.ok [rec] ∧
      rec.level = LogLevel.info ∧
      (∃ pre post, rec.detail = pre ++ toString 3 ++ post) ∧
      (ExcTup.typ ⟨ExcTyp.socketError, "(110, timed out)", some "timed out", "", 0⟩ =
          ExcTyp.socketError →
        ∃ pre post, rec.detail = pre
          ++ socketmsg ⟨ExcTyp.socketError, "(110, timed out)", some "timed out", "", 0⟩
          ++ post) ∧
      (∀ oracle tf, oracle.result 1 =
          Except.error
            ⟨ExcTyp.socketError, "(110, timed out)", some "timed out", "", 0⟩ →
        2 ≤ ((retryPutLoop "part_0001" oracle 2 0 tf).2).length) :=
  retry_classifier_retryable "part_0001"
    ⟨ExcTyp.socketError, "(110, timed out)", some "timed out", "", 0⟩ 3
    (Or.inl rfl)

/-- C4: when the first PUT attempt fails with an exception that is
neither a socket error nor a `RequestTimeTooSkewed` S3 response error,
the PUT is attempted exactly once and the loop re-raises the original
exception triple unchanged — same type, value, and traceback. -/
theorem retryPut_fatal_attempted_once (tpartName : String) (oracle : PutOracle)
    (e : ExcTup) (fuel : Nat) (tf : SpillFile)
    (hfatal : ¬(e.typ = ExcTyp.socketError ∨
      (e.typ = ExcTyp.s3ResponseError ∧ e.errorCode = "RequestTimeTooSkewed")))
    (hres : oracle.result 1 = Except.error e) :
    retryPutLoop tpartName oracle (fuel + 1) 0 tf =
      (some (Except.error e, 1), [tf.content]) := by
  push_neg at hfatal
  obtain ⟨hf1, hf2⟩ := hfatal
  have hcl : logVolumeFailuresOnError tpartName e 1 = Except.error e := by
    rw [logVolumeFailuresOnError, if_neg hf1, if_neg]
    intro hand
    exact absurd hand.2 (hf2 hand.1)
  rw [retryPutLoop, putFileHelper_eq, hres]
  simp only [hcl]

/-- C4 witness: a concrete `ValueError`-shaped failure is attempted once
and propagated unchanged, traceback identity included. -/
theorem retryPut_fatal_attempted_once_witness :
    ¬((ExcTup.typ ⟨ExcTyp.otherError "ValueError", "bad volume", none, "", 7⟩ =
          ExcTyp.socketError) ∨
        (ExcTup.typ ⟨ExcTyp.otherError "ValueError", "bad volume", none, "", 7⟩ =
            ExcTyp.s3ResponseError ∧
          ExcTup.errorCode ⟨ExcTyp.otherError "ValueError", "bad volume", none, "", 7⟩ =
            "RequestTimeTooSkewed")) ∧
      retryPutLoop "part_0001"
          ⟨fun _ => Except.error ⟨ExcTyp.otherError "ValueError", "bad volume", none, "", 7⟩,
            fun _ => 0⟩ (4 + 1) 0 ⟨[9, 8], 0⟩ =
        (some (Except.error ⟨ExcTyp.otherError "ValueError", "bad volume", none, "", 7⟩, 1),
          [[9, 8]]) :=
  ⟨by decide,
   retryPut_fatal_attempted_once "part_0001"
     ⟨fun _ => Except.error ⟨ExcTyp.otherError "ValueError", "bad volume", none, "", 7⟩,
       fun _ => 0⟩
     ⟨ExcTyp.otherError "ValueError", "bad volume", none, "", 7⟩ 4 ⟨[9, 8], 0⟩
     (by decide) rfl⟩

/-- C5: every PUT attempt in the retry loop — the first and every
retried one — streams the full spill-file contents, because
`put_file_helper` resets the read position to offset 0 before the PUT,
regardless of the position a previous attempt left the file at. -/
theorem retryPut_every_attempt_sends_full_content (tpartName : String)
    (oracle : PutOracle) (fuel n : Nat) (tf : SpillFile) (sent : List Nat)
    (hmem : sent ∈ (retryPutLoop tpartName oracle fuel n tf).2) :
    sent = tf.content := by
  induction fuel generalizing n tf with
  | zero => simp [retryPutLoop] at hmem
  | succ fuel ih =>
    rw [retryPutLoop, putFileHelper_eq] at hmem
    cases hres : oracle.result (n + 1) with
    | ok k =>
      rw [hres] at hmem
      simpa using hmem
    | error e =>
      rw [hres] at hmem
      cases hcl : logVolumeFailuresOnError tpartName e (n + 1) with
      | error e2 =>
        simp only [hcl] at hmem
        simpa using hmem
      | ok logs =>
        simp only [hcl] at hmem
        rcases List.mem_cons.mp (by simpa using hmem) with hhead | htail
        · exact hhead
        · exact ih (n + 1) ⟨tf.content, oracle.endPos (n + 1)⟩ htail

/-- C5 witness: with the spill file initially at read position 2 and a
socket error failing the first attempt, the second attempt still streams
the full three-byte content. -/
theorem retryPut_every_attempt_sends_full_content_witness :
    [1, 2, 3] ∈ (retryPutLoop "part_0001"
        ⟨fun _ => Except.error ⟨ExcTyp.socketError, "reset", none, "", 0⟩, fun _ => 5⟩
        2 0 ⟨[1, 2, 3], 2⟩).2 ∧
      [1, 2, 3] = SpillFile.content ⟨[1, 2, 3], 2⟩ :=
  ⟨by decide,
   retryPut_every_attempt_sends_full_content "part_0001"
     ⟨fun _ => Except.error ⟨ExcTyp.socketError, "reset", none, "", 0⟩, fun _ => 5⟩
     2 0 ⟨[1, 2, 3], 2⟩ [1, 2, 3] (by decide)⟩

/-! ### WalUploader: upload_to_blobstore and the callable interface -/

/-- One structured log record emitted by `WalUploader`, with the tag set
used by `upload_to_blobstore` (`action`, `key`, `seg`, the configured
path prefix, `state`, and `rate` on completion). -/
structure WalLogRecord where
  level : LogLevel
  msg : String
  detail : String
  action : String
  key : String
  seg : Option String
  pathPfx : String
  state : String
  rate : Option Nat
deriving DecidableEq, Repr

/-- Embedding of `WalUploader.upload_to_blobstore`: builds the WAL key,
logs the begin event, calls `do_lzop_put` (whose measured rate is the
parameter `kibPerSecond`), logs the complete event with that rate, and
falls off the end of the function body — so its Python return value is
`None`, embedded as the second component `none`.
`storage.CURRENT_VERSION` and `self.layout.path_prefix` live outside
this module and are passed in as `version` and `pathPfx`. -/
def uploadToBlobstore (layoutPfx pathPfx version : String) (seg : Segment)
    (kibPerSecond : Nat) : List WalLogRecord × Option Nat :=
  let url := walKeyUrl layoutPfx version seg.name
  ([⟨LogLevel.info, "begin archiving a file",
      "Uploading \"" ++ seg.path ++ "\" to \"" ++ url ++ "\".",
      "push-wal", url, some seg.name, pathPfx, "begin", none⟩,
    ⟨LogLevel.info, "completed archiving to a file ",
      "Archiving to \"" ++ url ++ "\" complete at "
        ++ toString kibPerSecond ++ "KiB/s. ",
      "push-wal", url, some seg.name, pathPfx, "complete", some kibPerSecond⟩],
   none)

/-- C9 counterexample: at a concrete segment with measured throughput
42 KiB/s, `upload_to_blobstore` returns `None`, not the throughput. -/
theorem uploadToBlobstore_returns_none_not_throughput :
    (uploadToBlobstore "p" "p" "005" ⟨"seg", "/pg/wal/seg"⟩ 42).2 = none ∧
      (none : Option Nat) ≠ some 42 := by
  constructor
  · rfl
  · decide

/-- C9 amended: `upload_to_blobstore` returns no value (Python `None`);
the measured throughput appears only in the completion log event, which
carries it in its `rate` tag. -/
theorem uploadToBlobstore_logs_throughput (layoutPfx pathPfx version : String)
    (seg : Segment) (kibPerSecond : Nat) :
    (uploadToBlobstore layoutPfx pathPfx version seg kibPerSecond).2 = none ∧
      ∃ rec ∈ (uploadToBlobstore layoutPfx pathPfx version seg kibPerSecond).1,
        rec.state = "complete" ∧ rec.rate = some kibPerSecond := by
  refine ⟨rfl,
    ⟨⟨LogLevel.info, "completed archiving to a file ",
      "Archiving to \"" ++ walKeyUrl layoutPfx version seg.name ++ "\" complete at "
        ++ toString kibPerSecond ++ "KiB/s. ",
      "push-wal", walKeyUrl layoutPfx version seg.name, some seg.name, pathPfx,
      "complete", some kibPerSecond⟩,
     List.mem_cons_of_mem _ (List.mem_cons_self _ _), rfl, rfl⟩⟩

/-- Names bound at the top level of `wal_e/worker/upload.py`: the six
stdlib imports, `boto` (via `import boto.exception`), the `from`-import
bindings, the module logger, and the four classes. -/
def moduleBindings : List String :=
  ["socket", "tempfile", "time", "threading", "subprocess", "errno",
   "boto", "log_help", "pipebuf", "pipeline", "storage", "get_blobstore",
   "PIPE", "retry", "retry_with_count", "do_lzop_put",
   "format_kib_per_second", "logger",
   "WalUploader", "WalDualUploader", "WalNfsThread", "PartitionUploader"]

/-- Modelled from the spec: the CPython builtin namespace, which is the
last scope consulted when a name is not a local and not a module
global.  It is external to the repository; what matters here is that no
builtin is named `upload_to_blobstore`. -/
def pythonBuiltins : List String :=
  ["abs", "all", "any", "ascii", "bin", "bool", "bytearray", "bytes",
   "callable", "chr", "classmethod", "compile", "complex", "delattr",
   "dict", "dir", "divmod", "enumerate", "eval", "exec", "filter",
   "float", "format", "frozenset", "getattr", "globals", "hasattr",
   "hash", "help", "hex", "id", "input", "int", "isinstance",
   "issubclass", "iter", "len", "list", "locals", "map", "max",
   "memoryview", "min", "next", "object", "oct", "open", "ord", "pow",
   "print", "property", "range", "repr", "reversed", "round", "set",
   "setattr", "slice", "sorted", "staticmethod", "str", "sum", "super",
   "tuple", "type", "vars", "zip",
   "Exception", "BaseException", "ValueError", "TypeError", "NameError",
   "None", "True", "False"]

/-- Local names in scope in the body of `WalUploader.__call__`. -/
def walUploaderCallLocals : List String :=
  ["self", "segment"]

/-- Python name resolution inside `WalUploader.__call__` (LEGB without
enclosing functions: locals, then module globals, then builtins; methods
of the class are not in any of these scopes). -/
def resolvesInCall (n : String) : Bool :=
  walUploaderCallLocals.contains n || moduleBindings.contains n
    || pythonBuiltins.contains n

/-- Embedding of `WalUploader.__call__`, whose body is the single
statement `upload_to_blobstore(segment)`: the unqualified name is
resolved first; if it resolved, the upload would run, otherwise Python
raises `NameError` before anything else happens. -/
def walUploaderCall (layoutPfx pathPfx version : String) (seg : Segment)
    (kibPerSecond : Nat) : List WalLogRecord × Except PyExc (Option Nat) :=
  if resolvesInCall "upload_to_blobstore" then
    let r := uploadToBlobstore layoutPfx pathPfx version seg kibPerSecond
    (r.1, Except.ok r.2)
  else
    ([], Except.error ⟨"NameError", "name 'upload_to_blobstore' is not defined"⟩)

/-- C10: invoking a `WalUploader` through `__call__` raises `NameError`
— the body references the unqualified, undefined name
`upload_to_blobstore` — with no log event emitted and no transfer
performed, for every segment. -/
theorem walUploaderCall_raises_nameError (layoutPfx pathPfx version : String)
    (seg : Segment) (kibPerSecond : Nat) :
    walUploaderCall layoutPfx pathPfx version seg kibPerSecond =
      ([], Except.error
        ⟨"NameError", "name 'upload_to_blobstore' is not defined"⟩) :=
  rfl

end WalE
